import Mathlib

set_option maxRecDepth 8000

/-!
Shallow embedding of the browsing-activity tracking core of the
SalesHub-frontend browser extension.

The authoritative source is the activity-based background service worker
(`src/unnamed/part_006`, first document in the file).  An earlier revision of
the same component, `src/public/background.js`, is embedded separately in
namespace `BG` where a claim cites it.

Modelling conventions:
* Timestamps are `Nat` milliseconds (`Date.now()`).  The JS comparison
  `now - lastActivityTime < IDLE_THRESHOLD_MS` agrees with truncated `Nat`
  subtraction: when `lastActivityTime > now` the JS difference is negative and
  the comparison is true, and `Nat` truncation to `0` gives the same answer.
* JS string truthiness (`!url` is true for `null`/`undefined`/`""`) is modelled
  by `Option String` together with `jsStrTruthy`.
* Network and storage side effects are modelled as an explicit trace of `Eff`
  values emitted by each operation; `Eff.createVisit` and `Eff.updateReq` are
  the actual outgoing HTTP requests, `Eff.storeWrite` is a
  `chrome.storage.local.set` snapshot.
* The response of the asynchronous create call (`logVisit`) is an input
  parameter (`Option VisitResult`), `none` meaning network failure or a
  non-ok response.
* `chrome.idle.queryState` is an input `Option String`: `some st` is a
  successful query returning state `st`, `none` means the query threw or the
  API is unavailable (the `catch` branch of `checkUserActive`).
-/

namespace Tracking

/-- Constant `DEBOUNCE_DELAY_MS` from the source: 1 second. -/
def DEBOUNCE_DELAY_MS : Nat := 1000

/-- Constant `IDLE_THRESHOLD_MS` from the source: 60 seconds. -/
def IDLE_THRESHOLD_MS : Nat := 60000

/-- JS truthiness of a possibly-missing string: `null`, `undefined` and `""`
are falsy. -/
def jsStrTruthy : Option String → Bool
  | none => false
  | some s => s ≠ ""

/-- Operation `x || null` applied to a possibly-missing string (used by
`loadPersistedVisitData` on `data.lastLoggedDomain`). -/
def jsOrNullStr : Option String → Option String
  | none => none
  | some s => if s = "" then none else some s

/-- Rounding `Math.round(ms / 1000)` for non-negative `ms`. -/
def jsRoundSec (ms : Nat) : Nat := (ms + 500) / 1000

/-! ## URL utilities

`extractDomain` calls the host primitive `new URL(url).hostname`.  That
primitive is not repository code; `urlHostname` models the relevant fragment of
the WHATWG URL Standard it implements:

* a URL string must start with a scheme (an ASCII letter followed by
  letters/digits/`+`/`-`/`.`) and a colon, otherwise parsing throws (`none`);
* for the special schemes (`http`, `https`, `ws`, `wss`, `ftp`, `file`) any
  run of slashes after the colon is skipped and the host extends to the next
  `/`, `?`, `#`, `:` or `\`; an empty host throws for the non-`file` special
  schemes;
* for every other scheme the host is the segment after `//` when present, and
  the empty string otherwise (e.g. `about:blank`, `mailto:x@y`, `data:...`
  all have hostname `""`).

The model does not validate host code points and does not perform IDNA or
percent decoding; all hosts appearing in theorems below are plain lowercase
ASCII, where the model agrees with the standard. -/

/-- Characters allowed in a URL scheme after the first letter. -/
def isSchemeChar (c : Char) : Bool :=
  c.isAlpha || c.isDigit || c = '+' || c = '-' || c = '.'

/-- Worker for `schemeSplit`: accumulate scheme characters until a colon. -/
def schemeSplitGo (acc : List Char) : List Char → Option (List Char × List Char)
  | [] => none
  | c :: cs =>
    if c = ':' then some (acc.reverse, cs)
    else if isSchemeChar c then schemeSplitGo (c :: acc) cs
    else none

/-- Split a URL into scheme and remainder; `none` when there is no valid
scheme-colon prefix (in which case `new URL` throws). -/
def schemeSplit : List Char → Option (List Char × List Char)
  | [] => none
  | c :: cs => if c.isAlpha then schemeSplitGo [c] cs else none

/-- The WHATWG special schemes. -/
def specialSchemes : List String := ["http", "https", "ws", "wss", "ftp", "file"]

/-- Characters terminating the host portion of an authority. -/
def hostTerminator (c : Char) : Bool :=
  c = '/' || c = '?' || c = '#' || c = ':' || c = '\\'

/-- Hostname of `new URL(url)`, or `none` when the constructor throws.
Modelled from the WHATWG URL Standard as described above. -/
def urlHostname (url : String) : Option String :=
  match schemeSplit url.toList with
  | none => none
  | some (sch, rest) =>
    let schStr := String.mk (sch.map Char.toLower)
    if specialSchemes.contains schStr then
      let afterSlashes := rest.dropWhile (fun c => c = '/' || c = '\\')
      let host := afterSlashes.takeWhile (fun c => !hostTerminator c)
      if host.isEmpty ∧ schStr ≠ "file" then none
      else some (String.mk (host.map Char.toLower))
    else
      if rest.take 2 = ['/', '/'] then
        some (String.mk ((rest.drop 2).takeWhile (fun c => !hostTerminator c)))
      else some ""

/-- Fallback `url.substring(0, 50)`: the first 50 characters of the string. -/
def jsSubstring50 (u : String) : String := String.mk (u.toList.take 50)

/-- Function `extractDomain` (part_006 lines 79-86): hostname of the URL, with the
fallback `url ? url.substring(0, 50) : 'unknown'` when `new URL` throws. -/
def extractDomain (url : Option String) : String :=
  match url with
  | none => "unknown"
  | some u =>
    match urlHostname u with
    | some h => h
    | none => if u = "" then "unknown" else jsSubstring50 u

/-- Tests whether `p` is an initial segment of `s` (JS `s.startsWith(p)`), on character
lists. -/
def listIsStart : List Char → List Char → Bool
  | [], _ => true
  | _ :: _, [] => false
  | a :: as, b :: bs => a = b && listIsStart as bs

/-- The excluded browser-internal URL prefixes of `shouldTrackUrl`. -/
def excludedUrlStarts : List String :=
  ["chrome://", "chrome-extension://", "edge://", "about:",
   "moz-extension://", "file://", "devtools://", "chrome-search://"]

/-- Function `shouldTrackUrl` (part_006 lines 88-101): falsy URLs are not tracked, nor
is any URL starting with a browser-internal scheme. -/
def shouldTrackUrl (url : Option String) : Bool :=
  match url with
  | none => false
  | some u =>
    if u = "" then false
    else !excludedUrlStarts.any (fun p => listIsStart p.toList u.toList)

/-! ## Data model -/

/-- The parsed JSON body of a successful `/tracking/log` response; the core
only ever reads its `visit_id` field. -/
structure VisitResult where
  visit_id : Option String
deriving DecidableEq

/-- The module-level mutable state of the activity-based service worker
(part_006 lines 9-19), minus the fields no claim touches (`cachedUserId`,
`debounceTimer`, modelled separately). -/
structure TrackerState where
  currentVisit : Option VisitResult
  lastLoggedDomain : Option String
  lastLoggedTime : Nat
  activeSeconds : Nat
  lastActivityTime : Nat
  lastHeartbeatTime : Nat
  isUserActive : Bool
deriving DecidableEq

/-- The initial values of the module-level variables. -/
def initialState : TrackerState :=
  { currentVisit := none, lastLoggedDomain := none, lastLoggedTime := 0,
    activeSeconds := 0, lastActivityTime := 0, lastHeartbeatTime := 0,
    isUserActive := false }

/-- The object written by `persistVisitData` to `chrome.storage.local`. -/
structure Snapshot where
  currentVisit : VisitResult
  activeSeconds : Nat
  lastLoggedDomain : Option String
  lastActivityTime : Nat
deriving DecidableEq

/-- Observable side effects of the core: the two outgoing HTTP requests and
the durable storage snapshot. -/
inductive Eff where
  | createVisit (domain url : String)
  | updateReq (visitId : String) (durationSeconds : Nat)
  | storeWrite (snap : Snapshot)
deriving DecidableEq

/-- A browser tab as seen by the listeners (only the fields the tracking core
reads). -/
structure Tab where
  url : Option String
  title : Option String
  id : Nat
  windowId : Nat
  favIconUrl : Option String
deriving DecidableEq

/-! ## Operations of the activity-based worker (part_006) -/

/-- Function `persistVisitData` (lines 28-37): snapshot the four ledger fields to
`chrome.storage.local`, but only when `currentVisit` is truthy. -/
def persistVisitData (s : TrackerState) : List Eff :=
  match s.currentVisit with
  | none => []
  | some v =>
    [Eff.storeWrite ⟨v, s.activeSeconds, s.lastLoggedDomain, s.lastActivityTime⟩]

/-- Function `loadPersistedVisitData` (lines 39-54): restore the four ledger fields
when the stored `currentVisit` is truthy; `stored = none` covers both an
absent key and a storage read that throws. -/
def loadPersistedVisitData (s : TrackerState) (stored : Option Snapshot) :
    TrackerState :=
  match stored with
  | none => s
  | some snap =>
    { s with currentVisit := some snap.currentVisit,
             activeSeconds := snap.activeSeconds,
             lastLoggedDomain := jsOrNullStr snap.lastLoggedDomain,
             lastActivityTime := snap.lastActivityTime }

/-- Function `checkUserActive` (lines 110-129).  `idle = some st` is a successful
`chrome.idle.queryState` returning `st`; `idle = none` is the `catch` branch
("Idle API might not be available, assume active"). -/
def checkUserActive (now lastActivityTime : Nat) (idle : Option String) : Bool :=
  let contentActive : Bool := now - lastActivityTime < IDLE_THRESHOLD_MS
  let systemActive : Bool :=
    match idle with
    | some st => st = "active"
    | none => true
  contentActive && systemActive

/-- Function `handleActivityDetected` (lines 134-144): record the activity timestamp
and mark the user active.  The function performs no storage or network call,
hence the empty effect list. -/
def handleActivityDetected (s : TrackerState) (now : Nat) :
    TrackerState × List Eff :=
  ({ s with lastActivityTime := now, isUserActive := true }, [])

/-- Function `handleUserIdle` (lines 149-154). -/
def handleUserIdle (s : TrackerState) : TrackerState × List Eff :=
  ({ s with isUserActive := false }, [])

/-- Function `updateDuration` (lines 188-206): drop the request when the visit id is
falsy, the duration is ≤ 0 (`= 0` on `Nat`), or the duration is ≥ 86400;
otherwise issue the `/tracking/update-duration` POST. -/
def updateDuration (visitId : Option String) (duration : Nat) : List Eff :=
  match visitId with
  | none => []
  | some vid =>
    if vid = "" then []
    else if duration = 0 then []
    else if 86400 ≤ duration then []
    else [Eff.updateReq vid duration]

/-- Function `finalizePreviousVisit` (lines 209-213): flush the accumulated active
seconds of the current record, provided it has a truthy `visit_id` and a
positive `activeSeconds`. -/
def finalizePreviousVisit (s : TrackerState) : List Eff :=
  match s.currentVisit with
  | none => []
  | some v =>
    if jsStrTruthy v.visit_id && decide (0 < s.activeSeconds) then
      updateDuration v.visit_id s.activeSeconds
    else []

/-- The tail of `trackDomainVisit` after `await logVisit` resolves
(lines 254-264): the response is stored and every ledger field is reset for
the new domain, then a snapshot is taken.  This is also the resumption point
of the suspended task in the interleaved machine below. -/
def applyCreateResponse (s : TrackerState) (domain : String) (now : Nat)
    (resp : Option VisitResult) : TrackerState × List Eff :=
  let s' : TrackerState :=
    { s with lastLoggedDomain := some domain, lastLoggedTime := now,
             currentVisit := resp, activeSeconds := 0,
             lastHeartbeatTime := now, lastActivityTime := now,
             isUserActive := true }
  (s', persistVisitData s')

/-- Function `trackDomainVisit` (lines 216-265), run atomically (no interleaving at
its await points).  `resp` is the environment's response to the
`/tracking/log` request; the request itself (`Eff.createVisit`) is emitted
unconditionally on the boundary path, matching the unconditional `fetch`
inside `logVisit`. -/
def trackDomainVisit (tab : Option Tab) (s : TrackerState) (now : Nat)
    (resp : Option VisitResult) : TrackerState × List Eff :=
  match tab with
  | none => (s, [])
  | some t =>
    if jsStrTruthy t.url = false then (s, [])
    else if shouldTrackUrl t.url = false then (s, [])
    else
      let domain := extractDomain t.url
      if some domain = s.lastLoggedDomain then
        ({ s with lastLoggedTime := now }, [])
      else
        let pre := finalizePreviousVisit s ++ [Eff.createVisit domain (t.url.getD "")]
        let res := applyCreateResponse s domain now resp
        (res.1, pre ++ res.2)

/-- The `keepAlive` alarm listener (lines 342-364): while a visit is open,
consult the activity signals, add the rounded wall-clock delta to
`activeSeconds` only when active, push the new total, and snapshot. -/
def heartbeatTick (s : TrackerState) (now : Nat) (idle : Option String) :
    TrackerState × List Eff :=
  match s.currentVisit with
  | none => (s, [])
  | some v =>
    let isActive := checkUserActive now s.lastActivityTime idle
    let delta := jsRoundSec (now - s.lastHeartbeatTime)
    if isActive && decide (0 < delta) then
      let s' := { s with activeSeconds := s.activeSeconds + delta,
                         lastHeartbeatTime := now }
      (s', updateDuration v.visit_id (s.activeSeconds + delta) ++ persistVisitData s')
    else
      let s' := { s with lastHeartbeatTime := now }
      (s', persistVisitData s')

/-- A navigation-complete event as consumed by `trackDomainVisit`: the tab,
the `Date.now()` at processing time, and the environment's create response
(unused on non-boundary events). -/
structure NavEvent where
  tab : Tab
  time : Nat
  resp : Option VisitResult
deriving DecidableEq

/-- Process a sequence of navigation events through `trackDomainVisit`,
collecting the emitted effects. -/
def runNavs (s : TrackerState) : List NavEvent → TrackerState × List Eff
  | [] => (s, [])
  | e :: rest =>
    let r1 := trackDomainVisit (some e.tab) s e.time e.resp
    let r2 := runNavs r1.1 rest
    (r2.1, r1.2 ++ r2.2)

/-- Number of `/tracking/log` requests (VisitRecord creations) in a trace. -/
def countCreates (effs : List Eff) : Nat :=
  effs.countP fun e => match e with | Eff.createVisit _ _ => true | _ => false

/-- Number of `/tracking/update-duration` requests in a trace. -/
def countUpdates (effs : List Eff) : Nat :=
  effs.countP fun e => match e with | Eff.updateReq _ _ => true | _ => false

/-! ## Debounce model

`debouncedTrackVisit` (lines 268-273) keeps a single shared timer handle:
each navigation-complete event clears the handle (`clearTimeout` is a no-op
when the timeout already fired) and arms a new timeout for
`DEBOUNCE_DELAY_MS` later carrying that event's tab.  `runDebounce` replays a
time-ordered list of events against a pending timer and returns the
`trackDomainVisit` evaluations that actually fire, as (fire time, tab)
pairs. -/
def runDebounce (pending : Option (Nat × Tab)) :
    List (Nat × Tab) → List (Nat × Tab)
  | [] =>
    match pending with
    | some p => [p]
    | none => []
  | (t, tab) :: rest =>
    let firedNow :=
      match pending with
      | some (ft, tb) => if ft ≤ t then [(ft, tb)] else []
      | none => []
    firedNow ++ runDebounce (some (t + DEBOUNCE_DELAY_MS, tab)) rest

/-- Each event of the list arrives within the debounce window of its
predecessor. -/
def withinWindow : List (Nat × Tab) → Bool
  | a :: b :: rest =>
    decide (b.1 < a.1 + DEBOUNCE_DELAY_MS) && withinWindow (b :: rest)
  | _ => true

/-! ## Interleaved machine

`trackDomainVisit` suspends at `await logVisit(...)`; the assignments of
lines 254-264 run only when the response arrives.  Between suspension and
resumption other callbacks may run.  `mstep` makes that interleaving
explicit: `Cmd.nav` runs a navigation event up to the suspension point
(recording a `PendingCreate` for the outstanding request) and `Cmd.resolve`
delivers the response to a pending request, running the resumption
(`applyCreateResponse`) against whatever the ledger state is at that
moment — exactly what the source does, with no staleness check. -/

/-- An outstanding `/tracking/log` request: the values of the local variables
`domain`, `tab.url` and `now` captured by the suspended `trackDomainVisit`
invocation. -/
structure PendingCreate where
  domain : String
  url : String
  time : Nat
deriving DecidableEq

/-- Commands of the interleaved machine. -/
inductive Cmd where
  | nav (tab : Tab) (now : Nat)
  | resolve (idx : Nat) (resp : Option VisitResult)
deriving DecidableEq

/-- State of the interleaved machine: the ledger, the outstanding create
requests, and the accumulated effect trace. -/
structure MState where
  core : TrackerState
  pendingCreates : List PendingCreate
  trace : List Eff
deriving DecidableEq

/-- One step of the interleaved machine. -/
def mstep (m : MState) : Cmd → MState
  | Cmd.nav tab now =>
    if jsStrTruthy tab.url = false then m
    else if shouldTrackUrl tab.url = false then m
    else
      let domain := extractDomain tab.url
      if some domain = m.core.lastLoggedDomain then
        { m with core := { m.core with lastLoggedTime := now } }
      else
        { core := m.core,
          pendingCreates := m.pendingCreates ++ [⟨domain, tab.url.getD "", now⟩],
          trace := m.trace ++ finalizePreviousVisit m.core ++
                   [Eff.createVisit domain (tab.url.getD "")] }
  | Cmd.resolve idx resp =>
    match m.pendingCreates.get? idx with
    | none => m
    | some p =>
      let res := applyCreateResponse m.core p.domain p.time resp
      { core := res.1,
        pendingCreates := m.pendingCreates.eraseIdx idx,
        trace := m.trace ++ res.2 }

/-- Run the interleaved machine over a command list. -/
def mrun (m : MState) (cmds : List Cmd) : MState := cmds.foldl mstep m

end Tracking

/-!
## Earlier revision: `src/public/background.js`

The first shipped revision of the same background worker.  Its
`updatePreviousVisitDuration` (lines 94-115) guards the duration only with
`duration > 0` — there is no 86400 ceiling in this file. -/

namespace BG

open Tracking

/-- Function `updatePreviousVisitDuration` from `src/public/background.js`
(lines 94-115): requires a truthy `currentVisit`, `currentVisit.visit_id`
and `visitStartTime`, computes `Math.round((Date.now() - visitStartTime) /
1000)`, and issues the request whenever `duration > 0`. -/
def updatePreviousVisitDuration (currentVisit : Option VisitResult)
    (visitStartTime : Option Nat) (now : Nat) : List Eff :=
  match currentVisit, visitStartTime with
  | some v, some t0 =>
    match v.visit_id with
    | some vid =>
      if vid = "" then []
      else if t0 = 0 then []
      else
        let duration := jsRoundSec (now - t0)
        if 0 < duration then [Eff.updateReq vid duration] else []
    | none => []
  | _, _ => []

end BG

/-! # Verification -/

namespace Tracking

/-- A trackable URL is in particular truthy. -/
theorem jsStrTruthy_of_shouldTrackUrl {u : Option String}
    (h : shouldTrackUrl u = true) : jsStrTruthy u = true := by
  cases u with
  | none => simp [shouldTrackUrl] at h
  | some s =>
    by_cases hs : s = "" <;> simp [shouldTrackUrl, jsStrTruthy, hs] at h ⊢

/-- Counting creates distributes over append (specialised). -/
theorem countCreates_append (a b : List Eff) :
    countCreates (a ++ b) = countCreates a + countCreates b := by
  simp [countCreates, List.countP_append]

/-- Function `updateDuration` either drops the request or emits exactly the one
guarded `/tracking/update-duration` POST. -/
theorem updateDuration_spec (vid : Option String) (d : Nat) :
    updateDuration vid d = [] ∨
      ∃ v, vid = some v ∧ v ≠ "" ∧ 0 < d ∧ d < 86400 ∧
        updateDuration vid d = [Eff.updateReq v d] := by
  unfold updateDuration
  cases vid with
  | none => exact Or.inl rfl
  | some v =>
    by_cases h1 : v = ""
    · simp [h1]
    · by_cases h2 : d = 0
      · simp [h1, h2]
      · by_cases h3 : 86400 ≤ d
        · simp [h1, h2, h3]
        · exact Or.inr ⟨v, rfl, h1, Nat.pos_of_ne_zero h2, lt_of_not_le h3,
            by simp [h1, h2, h3]⟩

theorem countCreates_updateDuration (vid : Option String) (d : Nat) :
    countCreates (updateDuration vid d) = 0 := by
  rcases updateDuration_spec vid d with h | ⟨v, _, _, _, _, h⟩ <;>
    simp [h, countCreates, List.countP_cons, List.countP_nil]

theorem countCreates_finalize (s : TrackerState) :
    countCreates (finalizePreviousVisit s) = 0 := by
  unfold finalizePreviousVisit
  cases s.currentVisit with
  | none => rfl
  | some v =>
    dsimp only
    split
    · exact countCreates_updateDuration _ _
    · rfl

theorem countCreates_persist (s : TrackerState) :
    countCreates (persistVisitData s) = 0 := by
  unfold persistVisitData
  cases s.currentVisit <;>
    simp [countCreates, List.countP_cons, List.countP_nil]

theorem countUpdates_persist (s : TrackerState) :
    countUpdates (persistVisitData s) = 0 := by
  unfold persistVisitData
  cases s.currentVisit <;>
    simp [countUpdates, List.countP_cons, List.countP_nil]

/-- C2: the engagement check combines the two signals by conjunction, with
the background signal defaulting to active on a failed idle query. -/
theorem claim2_checkUserActive :
    (∀ (now last : Nat) (st : String),
        checkUserActive now last (some st) = true ↔
          (now - last < IDLE_THRESHOLD_MS ∧ st = "active"))
    ∧ (∀ now last : Nat,
        checkUserActive now last none = true ↔ now - last < IDLE_THRESHOLD_MS) := by
  constructor
  · intro now last st
    simp [checkUserActive]
  · intro now last
    simp [checkUserActive]

/-- C6 counterexample: `extractDomain` applied to the non-empty input
`"about:blank"` succeeds in parsing (hostname of an `about:` URL is the empty
string) and therefore returns the empty string, contradicting "for every
non-empty input the returned string is non-empty". -/
theorem claim6_counterexample :
    "about:blank" ≠ "" ∧ extractDomain (some "about:blank") = "" :=
  ⟨by decide, by decide⟩

/-- C6 amended: `extractDomain` is total; when URL parsing fails it returns
`"unknown"` for the empty input and otherwise the first at-most-50 characters
of the raw string, which is a non-empty string; when parsing succeeds it
returns the parsed hostname, which may be empty (e.g. for `about:blank`). -/
theorem claim6_extractDomain_amended (u : String) :
    (∀ h, urlHostname u = some h → extractDomain (some u) = h)
    ∧ (urlHostname u = none →
        extractDomain (some u) = if u = "" then "unknown" else jsSubstring50 u)
    ∧ (urlHostname u = none → u ≠ "" →
        extractDomain (some u) ≠ "" ∧ (extractDomain (some u)).length ≤ 50) := by
  refine ⟨fun h hh => ?_, fun hn => ?_, fun hn hu => ?_⟩
  · simp [extractDomain, hh]
  · simp [extractDomain, hn]
  · have hlist : u.toList ≠ [] := by
      intro hc
      apply hu
      cases u with
      | mk data => simpa [String.toList] using congrArg String.mk hc
    constructor
    · simp only [extractDomain, hn, if_neg hu, jsSubstring50]
      intro hc
      have : u.toList.take 50 = ([] : List Char) := by
        have := congrArg String.toList hc
        simpa [String.toList] using this
      rcases List.take_eq_nil_iff.mp this with h50 | hnil
      · exact absurd h50 (by norm_num)
      · exact hlist hnil
    · simp only [extractDomain, hn, if_neg hu, jsSubstring50]
      have h50 : (u.toList.take 50).length ≤ 50 := by
        rw [List.length_take]
        exact min_le_left _ _
      exact h50

/-- C6 witness: the amended guarantees evaluated at the unparseable non-empty
input `"notaurl"`. -/
theorem claim6_witness :
    extractDomain (some "notaurl") = jsSubstring50 "notaurl"
    ∧ extractDomain (some "notaurl") ≠ ""
    ∧ (extractDomain (some "notaurl")).length ≤ 50 :=
  ⟨by
      have h := (claim6_extractDomain_amended "notaurl").2.1 (by decide)
      rwa [if_neg (by decide : ¬("notaurl" = ""))] at h,
    ((claim6_extractDomain_amended "notaurl").2.2 (by decide) (by decide)).1,
    ((claim6_extractDomain_amended "notaurl").2.2 (by decide) (by decide)).2⟩

/-- Any `/tracking/update-duration` request produced by `updateDuration`
carries a truthy visit id and a duration strictly between 0 and 86400. -/
theorem updateReq_mem_updateDuration {vid0 : Option String} {d : Nat}
    {v : String} {dur : Nat}
    (h : Eff.updateReq v dur ∈ updateDuration vid0 d) :
    v ≠ "" ∧ 0 < dur ∧ dur < 86400 := by
  rcases updateDuration_spec vid0 d with he | ⟨w, _, hw, hp, hc, he⟩ <;>
    rw [he] at h
  · simp at h
  · simp at h
    exact ⟨h.1 ▸ hw, h.2 ▸ hp, h.2 ▸ hc⟩

/-- No update request appears in a finalize trace beyond the guarded one. -/
theorem updateReq_mem_finalize {s : TrackerState} {v : String} {dur : Nat}
    (h : Eff.updateReq v dur ∈ finalizePreviousVisit s) :
    v ≠ "" ∧ 0 < dur ∧ dur < 86400 := by
  unfold finalizePreviousVisit at h
  cases hc : s.currentVisit with
  | none => rw [hc] at h; simp at h
  | some w =>
    rw [hc] at h
    dsimp only at h
    split at h
    · exact updateReq_mem_updateDuration h
    · simp at h

/-- Storage snapshots contain no update request. -/
theorem updateReq_not_mem_persist {s : TrackerState} {v : String} {dur : Nat} :
    Eff.updateReq v dur ∉ persistVisitData s := by
  unfold persistVisitData
  cases s.currentVisit <;> simp

/-- C5 amended: in the activity-based service worker (part_006) every
`/tracking/update-duration` request — whether from a boundary finalize inside
`trackDomainVisit` or from a heartbeat tick — carries a truthy visit id and a
duration strictly between 0 and 86400; out-of-range values are dropped before
the network call.  (The claim as stated over the whole program is refuted by
`claim5_counterexample` below: the earlier revision `src/public/background.js`
checks only `duration > 0`.) -/
theorem claim5_sanityCeiling_amended :
    (∀ (tab : Option Tab) (s : TrackerState) (now : Nat)
        (resp : Option VisitResult) (v : String) (dur : Nat),
        Eff.updateReq v dur ∈ (trackDomainVisit tab s now resp).2 →
        v ≠ "" ∧ 0 < dur ∧ dur < 86400)
    ∧ (∀ (s : TrackerState) (now : Nat) (idle : Option String)
        (v : String) (dur : Nat),
        Eff.updateReq v dur ∈ (heartbeatTick s now idle).2 →
        v ≠ "" ∧ 0 < dur ∧ dur < 86400) := by
  constructor
  · intro tab s now resp v dur h
    unfold trackDomainVisit at h
    cases tab with
    | none => simp at h
    | some t =>
      dsimp only at h
      split at h
      · simp at h
      · split at h
        · simp at h
        · split at h
          · simp at h
          · rw [List.append_assoc, List.mem_append] at h
            rcases h with h | h
            · exact updateReq_mem_finalize h
            · rw [List.mem_append] at h
              rcases h with h | h
              · simp at h
              · exact absurd h updateReq_not_mem_persist
  · intro s now idle v dur h
    unfold heartbeatTick at h
    cases hc : s.currentVisit with
    | none => rw [hc] at h; simp at h
    | some w =>
      rw [hc] at h
      dsimp only at h
      split at h
      · rw [List.mem_append] at h
        rcases h with h | h
        · exact updateReq_mem_updateDuration h
        · exact absurd h updateReq_not_mem_persist
      · dsimp only at h
        exact absurd h updateReq_not_mem_persist

/-- C5 witness: a heartbeat update request at a concrete engaged state, shown
to satisfy the amended bounds. -/
theorem claim5_witness :
    Eff.updateReq "abc" 40 ∈
      (heartbeatTick ⟨some ⟨some "abc"⟩, some "a.com", 0, 10, 0, 0, true⟩
        30000 none).2
    ∧ ("abc" ≠ "" ∧ 0 < 40 ∧ 40 < 86400) :=
  ⟨by decide,
    claim5_sanityCeiling_amended.2
      ⟨some ⟨some "abc"⟩, some "a.com", 0, 10, 0, 0, true⟩ 30000 none
      "abc" 40 (by decide)⟩

/-- C5 counterexample: `updatePreviousVisitDuration` in
`src/public/background.js` issues a `/tracking/update-duration` request with
`duration_seconds = 172800 ≥ 86400` when the tracked visit has been open for
48 hours — the ceiling guard exists only in the later revisions. -/
theorem claim5_counterexample :
    BG.updatePreviousVisitDuration (some ⟨some "abc"⟩) (some 1000) 172801000
      = [Eff.updateReq "abc" 172800]
    ∧ 86400 ≤ 172800 :=
  ⟨by decide, by decide⟩

/-- C7 counterexample: `handleActivityDetected` mutates `lastActivityTime`
— a field of the durable snapshot, as witnessed by the changed
`persistVisitData` output — yet performs no storage write at all (its effect
list is empty), so this restart-losable mutation is not snapshotted
synchronously. -/
theorem claim7_counterexample :
    (handleActivityDetected
        ⟨some ⟨some "abc"⟩, some "a.com", 0, 5, 0, 0, false⟩ 999).2 = []
    ∧ (handleActivityDetected
        ⟨some ⟨some "abc"⟩, some "a.com", 0, 5, 0, 0, false⟩ 999).1.lastActivityTime
        = 999
    ∧ (⟨some ⟨some "abc"⟩, some "a.com", 0, 5, 0, 0, false⟩ :
        TrackerState).lastActivityTime ≠ 999
    ∧ persistVisitData (handleActivityDetected
        ⟨some ⟨some "abc"⟩, some "a.com", 0, 5, 0, 0, false⟩ 999).1
      ≠ persistVisitData
        ⟨some ⟨some "abc"⟩, some "a.com", 0, 5, 0, 0, false⟩ := by
  refine ⟨rfl, rfl, by decide, by decide⟩

/-- C7 amended: the boundary path of `trackDomainVisit` and the heartbeat
listener do snapshot the ledger synchronously after their mutations (their
effect trace ends with a `storeWrite` of the post-mutation state whenever the
current visit is non-null), but `handleActivityDetected` mutates
`lastActivityTime` with no snapshot at all, and the snapshot is skipped
entirely whenever `currentVisit` is null. -/
theorem claim7_snapshot_amended :
    (∀ (s : TrackerState) (t : Tab) (now : Nat) (r : VisitResult),
        jsStrTruthy t.url = true → shouldTrackUrl t.url = true →
        some (extractDomain t.url) ≠ s.lastLoggedDomain →
        ((trackDomainVisit (some t) s now (some r)).2).getLast? =
          some (Eff.storeWrite ⟨r, 0, some (extractDomain t.url), now⟩))
    ∧ (∀ (s : TrackerState) (now : Nat) (idle : Option String) (v : VisitResult),
        s.currentVisit = some v →
        ((heartbeatTick s now idle).2).getLast? =
          some (Eff.storeWrite ⟨v, (heartbeatTick s now idle).1.activeSeconds,
            s.lastLoggedDomain, s.lastActivityTime⟩))
    ∧ (∀ (s : TrackerState) (now : Nat),
        (handleActivityDetected s now).2 = []
        ∧ (handleActivityDetected s now).1.lastActivityTime = now) := by
  refine ⟨?_, ?_, ?_⟩
  · intro s t now r hu ht hd
    unfold trackDomainVisit
    dsimp only
    rw [if_neg (show ¬(jsStrTruthy t.url = false) by simp [hu]),
        if_neg (show ¬(shouldTrackUrl t.url = false) by simp [ht]),
        if_neg hd]
    simp [applyCreateResponse, persistVisitData, List.getLast?_concat]
  · intro s now idle v hv
    unfold heartbeatTick
    rw [hv]
    dsimp only
    split <;> simp [persistVisitData, hv, List.getLast?_concat]
  · intro s now
    exact ⟨rfl, rfl⟩

/-- C7 witness: the amended snapshot guarantee at a concrete boundary. -/
theorem claim7_witness :
    ((trackDomainVisit (some ⟨some "https://a.com/", none, 1, 1, none⟩)
        initialState 5 (some ⟨some "id1"⟩)).2).getLast? =
      some (Eff.storeWrite ⟨⟨some "id1"⟩, 0, some "a.com", 5⟩) := by
  have h := claim7_snapshot_amended.1 initialState
    ⟨some "https://a.com/", none, 1, 1, none⟩ 5 ⟨some "id1"⟩
    (by decide) (by decide) (by decide)
  rw [show extractDomain (some "https://a.com/") = "a.com" from by decide] at h
  exact h

/-- C10 counterexample: an interleaving in which a create request for
`a.com` is still outstanding when the user reaches `b.com` and `b.com`'s
create resolves first.  When the stale `a.com` response then resolves, the
ledger's current domain is `b.com` ≠ `a.com`, yet the response is applied —
its identifier is stored and the ledger is reset to `a.com` — because
`trackDomainVisit` performs no staleness check after `await logVisit`. -/
theorem claim10_counterexample :
    (mrun ⟨initialState, [], []⟩
        [Cmd.nav ⟨some "https://a.com/", none, 1, 1, none⟩ 1000,
         Cmd.nav ⟨some "https://b.com/", none, 2, 1, none⟩ 2000,
         Cmd.resolve 1 (some ⟨some "idB"⟩)]).core.lastLoggedDomain
      = some "b.com"
    ∧ (mrun ⟨initialState, [], []⟩
        [Cmd.nav ⟨some "https://a.com/", none, 1, 1, none⟩ 1000,
         Cmd.nav ⟨some "https://b.com/", none, 2, 1, none⟩ 2000,
         Cmd.resolve 1 (some ⟨some "idB"⟩)]).pendingCreates.get? 0
      = some ⟨"a.com", "https://a.com/", 1000⟩
    ∧ (mstep (mrun ⟨initialState, [], []⟩
        [Cmd.nav ⟨some "https://a.com/", none, 1, 1, none⟩ 1000,
         Cmd.nav ⟨some "https://b.com/", none, 2, 1, none⟩ 2000,
         Cmd.resolve 1 (some ⟨some "idB"⟩)])
        (Cmd.resolve 0 (some ⟨some "idA"⟩))).core.currentVisit
      = some ⟨some "idA"⟩
    ∧ (mstep (mrun ⟨initialState, [], []⟩
        [Cmd.nav ⟨some "https://a.com/", none, 1, 1, none⟩ 1000,
         Cmd.nav ⟨some "https://b.com/", none, 2, 1, none⟩ 2000,
         Cmd.resolve 1 (some ⟨some "idB"⟩)])
        (Cmd.resolve 0 (some ⟨some "idA"⟩))).core.lastLoggedDomain
      = some "a.com"
    ∧ ("a.com" : String) ≠ "b.com" := by
  refine ⟨by decide, by decide, by decide, by decide, by decide⟩

/-- C10 amended: a create-response is applied unconditionally — there is no
check against the current ledger domain — but its application overwrites the
ledger's domain together with the identifier, so the stored remote
identifier always sits next to the domain of the call that produced it; the
cost is that a stale response for a departed domain overwrites the newer
record wholesale (see `claim10_counterexample`). -/
theorem claim10_applyResponse_amended :
    (∀ (s : TrackerState) (domain : String) (now : Nat)
        (resp : Option VisitResult),
        (applyCreateResponse s domain now resp).1.currentVisit = resp
        ∧ (applyCreateResponse s domain now resp).1.lastLoggedDomain = some domain)
    ∧ (∀ (m : MState) (idx : Nat) (resp : Option VisitResult) (p : PendingCreate),
        m.pendingCreates.get? idx = some p →
        (mstep m (Cmd.resolve idx resp)).core.currentVisit = resp
        ∧ (mstep m (Cmd.resolve idx resp)).core.lastLoggedDomain = some p.domain) := by
  constructor
  · intro s domain now resp
    exact ⟨rfl, rfl⟩
  · intro m idx resp p hp
    unfold mstep
    dsimp only
    rw [hp]
    exact ⟨rfl, rfl⟩

/-- C10 witness: resolving a concrete pending create stores its identifier
and resets the ledger domain to the issuing call's domain. -/
theorem claim10_witness :
    (mstep ⟨initialState, [⟨"a.com", "https://a.com/", 1⟩], []⟩
        (Cmd.resolve 0 (some ⟨some "x"⟩))).core.currentVisit = some ⟨some "x"⟩
    ∧ (mstep ⟨initialState, [⟨"a.com", "https://a.com/", 1⟩], []⟩
        (Cmd.resolve 0 (some ⟨some "x"⟩))).core.lastLoggedDomain = some "a.com" :=
  claim10_applyResponse_amended.2
    ⟨initialState, [⟨"a.com", "https://a.com/", 1⟩], []⟩ 0 (some ⟨some "x"⟩)
    ⟨"a.com", "https://a.com/", 1⟩ rfl

/-- C3: a heartbeat tick at which the activity tracker reports "not engaged"
leaves `activeSeconds` unchanged, and in general a tick adds exactly the
rounded wall-clock delta when (and only when) a visit is open, the tracker
reports engaged, and the delta is positive. -/
theorem claim3_idleGating :
    ∀ (s : TrackerState) (now : Nat) (idle : Option String),
      (checkUserActive now s.lastActivityTime idle = false →
        (heartbeatTick s now idle).1.activeSeconds = s.activeSeconds)
      ∧ (heartbeatTick s now idle).1.activeSeconds
          = s.activeSeconds +
            (if s.currentVisit.isSome = true
                ∧ checkUserActive now s.lastActivityTime idle = true
                ∧ 0 < jsRoundSec (now - s.lastHeartbeatTime)
             then jsRoundSec (now - s.lastHeartbeatTime) else 0) := by
  intro s now idle
  unfold heartbeatTick
  cases hc : s.currentVisit with
  | none => simp [hc]
  | some v =>
    dsimp only
    by_cases ha : checkUserActive now s.lastActivityTime idle = true
    · by_cases hd : 0 < jsRoundSec (now - s.lastHeartbeatTime)
      · simp [ha, hd]
      · simp [ha, hd]
    · simp [ha]

/-- C3 witness: an entirely idle tick (last foreground ping 70 seconds old)
adds nothing to the accumulated engaged time. -/
theorem claim3_witness :
    checkUserActive 70000 0 none = false
    ∧ (heartbeatTick ⟨some ⟨some "abc"⟩, some "a.com", 0, 7, 0, 0, true⟩
        70000 none).1.activeSeconds = 7 :=
  ⟨by decide,
    (claim3_idleGating ⟨some ⟨some "abc"⟩, some "a.com", 0, 7, 0, 0, true⟩
      70000 none).1 (by decide)⟩

/-- C4: on a genuine domain boundary the previous record is flushed before
the successor's create call: the emitted trace is exactly the guarded
duration-update for the preceding record's id and accumulated seconds
(present whenever the id is truthy and the seconds nonzero), followed by the
create request, followed by the snapshot; under the 86400 ceiling this is
exactly one update request, and it precedes the create. -/
theorem claim4_boundaryFlush :
    ∀ (s : TrackerState) (t : Tab) (now : Nat) (resp : Option VisitResult)
      (v : VisitResult) (vid : String),
      jsStrTruthy t.url = true → shouldTrackUrl t.url = true →
      some (extractDomain t.url) ≠ s.lastLoggedDomain →
      s.currentVisit = some v → v.visit_id = some vid → vid ≠ "" →
      0 < s.activeSeconds →
      (trackDomainVisit (some t) s now resp).2
        = updateDuration (some vid) s.activeSeconds
          ++ Eff.createVisit (extractDomain t.url) (t.url.getD "")
          :: persistVisitData (trackDomainVisit (some t) s now resp).1
      ∧ (s.activeSeconds < 86400 →
          (trackDomainVisit (some t) s now resp).2
            = Eff.updateReq vid s.activeSeconds
              :: Eff.createVisit (extractDomain t.url) (t.url.getD "")
              :: persistVisitData (trackDomainVisit (some t) s now resp).1
          ∧ countUpdates (trackDomainVisit (some t) s now resp).2 = 1) := by
  intro s t now resp v vid hu ht hd hv hvid hne hpos
  have hfin : finalizePreviousVisit s = updateDuration (some vid) s.activeSeconds := by
    unfold finalizePreviousVisit
    rw [hv]
    dsimp only
    rw [if_pos]
    · rw [hvid]
    · simp [jsStrTruthy, hvid, hne, hpos]
  have htrack :
      (trackDomainVisit (some t) s now resp).2
        = finalizePreviousVisit s
          ++ Eff.createVisit (extractDomain t.url) (t.url.getD "")
          :: persistVisitData (trackDomainVisit (some t) s now resp).1 := by
    unfold trackDomainVisit
    dsimp only
    rw [if_neg (show ¬(jsStrTruthy t.url = false) by simp [hu]),
        if_neg (show ¬(shouldTrackUrl t.url = false) by simp [ht]),
        if_neg hd]
    simp [applyCreateResponse]
  refine ⟨by rw [htrack, hfin], fun hceil => ?_⟩
  have hupd : updateDuration (some vid) s.activeSeconds
      = [Eff.updateReq vid s.activeSeconds] := by
    unfold updateDuration
    dsimp only
    rw [if_neg hne, if_neg (Nat.pos_iff_ne_zero.mp hpos),
        if_neg (not_le_of_lt hceil)]
  constructor
  · rw [htrack, hfin, hupd]
    rfl
  · rw [htrack, hfin, hupd]
    have h0 : countUpdates
        (persistVisitData (trackDomainVisit (some t) s now resp).1) = 0 :=
      countUpdates_persist _
    simp [countUpdates, List.countP_cons] at h0 ⊢
    simpa [countUpdates] using h0

/-- C4 witness: a concrete boundary from `a.com` (42 engaged seconds,
remote id `"abc"`) to `b.com` emits exactly the flush followed by the
create. -/
theorem claim4_witness :
    (trackDomainVisit (some ⟨some "https://b.com/", none, 1, 1, none⟩)
        ⟨some ⟨some "abc"⟩, some "a.com", 0, 42, 0, 0, true⟩ 9 none).2
      = [Eff.updateReq "abc" 42, Eff.createVisit "b.com" "https://b.com/"]
    ∧ countUpdates
        (trackDomainVisit (some ⟨some "https://b.com/", none, 1, 1, none⟩)
          ⟨some ⟨some "abc"⟩, some "a.com", 0, 42, 0, 0, true⟩ 9 none).2 = 1 := by
  have h := (claim4_boundaryFlush
    ⟨some ⟨some "abc"⟩, some "a.com", 0, 42, 0, 0, true⟩
    ⟨some "https://b.com/", none, 1, 1, none⟩ 9 none ⟨some "abc"⟩ "abc"
    (by decide) (by decide) (by decide) rfl rfl (by decide) (by decide)).2
    (by decide)
  refine ⟨?_, h.2⟩
  rw [h.1]
  decide

/-- Skip branch: a falsy URL is ignored. -/
theorem trackDomainVisit_skip_untruthy {t : Tab} {s : TrackerState}
    {now : Nat} {resp : Option VisitResult} (h : jsStrTruthy t.url = false) :
    trackDomainVisit (some t) s now resp = (s, []) := by
  unfold trackDomainVisit
  dsimp only
  rw [if_pos h]

/-- Skip branch: an excluded URL is ignored. -/
theorem trackDomainVisit_skip_untracked {t : Tab} {s : TrackerState}
    {now : Nat} {resp : Option VisitResult} (h : shouldTrackUrl t.url = false) :
    trackDomainVisit (some t) s now resp = (s, []) := by
  unfold trackDomainVisit
  dsimp only
  by_cases h1 : jsStrTruthy t.url = false
  · rw [if_pos h1]
  · rw [if_neg h1, if_pos h]

/-- Same-domain branch: only the dedup timestamp moves; no effect is
emitted. -/
theorem trackDomainVisit_same {t : Tab} {s : TrackerState}
    {now : Nat} {resp : Option VisitResult}
    (ht : shouldTrackUrl t.url = true)
    (hsame : some (extractDomain t.url) = s.lastLoggedDomain) :
    trackDomainVisit (some t) s now resp
      = ({ s with lastLoggedTime := now }, []) := by
  have hu := jsStrTruthy_of_shouldTrackUrl ht
  unfold trackDomainVisit
  dsimp only
  rw [if_neg (show ¬(jsStrTruthy t.url = false) by simp [hu]),
      if_neg (show ¬(shouldTrackUrl t.url = false) by simp [ht]),
      if_pos hsame]

/-- Boundary branch: finalize, create, apply the response, snapshot. -/
theorem trackDomainVisit_boundary {t : Tab} {s : TrackerState}
    {now : Nat} {resp : Option VisitResult}
    (ht : shouldTrackUrl t.url = true)
    (hd : some (extractDomain t.url) ≠ s.lastLoggedDomain) :
    trackDomainVisit (some t) s now resp
      = ((applyCreateResponse s (extractDomain t.url) now resp).1,
          finalizePreviousVisit s
            ++ Eff.createVisit (extractDomain t.url) (t.url.getD "")
            :: (applyCreateResponse s (extractDomain t.url) now resp).2) := by
  have hu := jsStrTruthy_of_shouldTrackUrl ht
  unfold trackDomainVisit
  dsimp only
  rw [if_neg (show ¬(jsStrTruthy t.url = false) by simp [hu]),
      if_neg (show ¬(shouldTrackUrl t.url = false) by simp [ht]),
      if_neg hd]
  refine Prod.ext rfl ?_
  simp

theorem countCreates_cons_create (d u : String) (l : List Eff) :
    countCreates (Eff.createVisit d u :: l) = countCreates l + 1 := by
  simp [countCreates, List.countP_cons]

/-- A boundary emits exactly one create request. -/
theorem countCreates_boundary {t : Tab} {s : TrackerState}
    {now : Nat} {resp : Option VisitResult}
    (ht : shouldTrackUrl t.url = true)
    (hd : some (extractDomain t.url) ≠ s.lastLoggedDomain) :
    countCreates (trackDomainVisit (some t) s now resp).2 = 1 := by
  rw [trackDomainVisit_boundary ht hd]
  dsimp only
  rw [countCreates_append, countCreates_finalize, countCreates_cons_create]
  have : (applyCreateResponse s (extractDomain t.url) now resp).2
      = persistVisitData (applyCreateResponse s (extractDomain t.url) now resp).1 :=
    rfl
  rw [this, countCreates_persist]

/-- Repeated same-hostname navigations after the first opened record create
nothing further. -/
theorem runNavs_count (d : String) :
    ∀ (evts : List NavEvent) (s : TrackerState),
      (∀ e ∈ evts, shouldTrackUrl e.tab.url = true
        ∧ urlHostname (e.tab.url.getD "") = some d) →
      countCreates (runNavs s evts).2
        = (if some d = s.lastLoggedDomain then 0
           else if evts.isEmpty then 0 else 1) := by
  intro evts
  induction evts with
  | nil =>
    intro s _
    simp [runNavs, countCreates]
  | cons e rest ih =>
    intro s h
    obtain ⟨ht, hh⟩ := h e (List.mem_cons_self e rest)
    obtain ⟨u, hu⟩ : ∃ u, e.tab.url = some u := by
      cases hc : e.tab.url with
      | none => rw [hc] at ht; simp [shouldTrackUrl] at ht
      | some u => exact ⟨u, rfl⟩
    have hex : extractDomain e.tab.url = d := by
      rw [hu]
      rw [hu] at hh
      simp only [Option.getD_some] at hh
      simp [extractDomain, hh]
    have hrest : ∀ e2 ∈ rest, shouldTrackUrl e2.tab.url = true
        ∧ urlHostname (e2.tab.url.getD "") = some d :=
      fun e2 he2 => h e2 (List.mem_cons_of_mem e he2)
    by_cases hsame : some d = s.lastLoggedDomain
    · have hstep := @trackDomainVisit_same e.tab s e.time e.resp
        ht (by rw [hex]; exact hsame)
      unfold runNavs
      rw [hstep]
      dsimp only
      rw [countCreates_append]
      have : countCreates ([] : List Eff) = 0 := rfl
      rw [this]
      have ihr := ih { s with lastLoggedTime := e.time } hrest
      rw [if_pos hsame] at ihr ⊢
      simpa using ihr
    · have hstep := @trackDomainVisit_boundary e.tab s e.time e.resp
        ht (by rw [hex]; exact hsame)
      unfold runNavs
      dsimp only
      rw [countCreates_append]
      have hone : countCreates (trackDomainVisit (some e.tab) s e.time e.resp).2 = 1 :=
        countCreates_boundary ht (by rw [hex]; exact hsame)
      rw [hone]
      have hdom : (trackDomainVisit (some e.tab) s e.time e.resp).1.lastLoggedDomain
          = some d := by
        rw [hstep, hex]
        rfl
      have ihr := ih (trackDomainVisit (some e.tab) s e.time e.resp).1 hrest
      rw [if_pos (by rw [hdom])] at ihr
      rw [ihr, if_neg hsame]
      simp

/-- C1: a VisitRecord is created (one `/tracking/log` request, ledger reset)
iff the navigation's URL is trackable and its extracted domain differs from
the ledger's current domain; a same-domain event changes nothing but the
dedup timestamp; and over any sequence of same-hostname trackable
navigations at most one creation occurs — none after the first. -/
theorem claim1_domainPartition :
    (∀ (s : TrackerState) (t : Tab) (now : Nat) (resp : Option VisitResult),
        0 < countCreates (trackDomainVisit (some t) s now resp).2
          ↔ (shouldTrackUrl t.url = true
              ∧ some (extractDomain t.url) ≠ s.lastLoggedDomain))
    ∧ (∀ (s : TrackerState) (t : Tab) (now : Nat) (resp : Option VisitResult),
        shouldTrackUrl t.url = true →
        some (extractDomain t.url) ≠ s.lastLoggedDomain →
        countCreates (trackDomainVisit (some t) s now resp).2 = 1
        ∧ (trackDomainVisit (some t) s now resp).1.lastLoggedDomain
            = some (extractDomain t.url)
        ∧ (trackDomainVisit (some t) s now resp).1.currentVisit = resp
        ∧ (trackDomainVisit (some t) s now resp).1.activeSeconds = 0)
    ∧ (∀ (s : TrackerState) (t : Tab) (now : Nat) (resp : Option VisitResult),
        some (extractDomain t.url) = s.lastLoggedDomain →
        (trackDomainVisit (some t) s now resp).2 = []
        ∧ (trackDomainVisit (some t) s now resp).1.currentVisit = s.currentVisit
        ∧ (trackDomainVisit (some t) s now resp).1.lastLoggedDomain
            = s.lastLoggedDomain
        ∧ (trackDomainVisit (some t) s now resp).1.activeSeconds = s.activeSeconds
        ∧ (trackDomainVisit (some t) s now resp).1.lastActivityTime
            = s.lastActivityTime)
    ∧ (∀ (d : String) (evts : List NavEvent) (s : TrackerState),
        (∀ e ∈ evts, shouldTrackUrl e.tab.url = true
          ∧ urlHostname (e.tab.url.getD "") = some d) →
        countCreates (runNavs s evts).2
          = (if some d = s.lastLoggedDomain then 0
             else if evts.isEmpty then 0 else 1)) := by
  refine ⟨?_, ?_, ?_, runNavs_count⟩
  · intro s t now resp
    constructor
    · intro hpos
      by_cases ht : shouldTrackUrl t.url = true
      · refine ⟨ht, ?_⟩
        intro hsame
        rw [trackDomainVisit_same ht hsame] at hpos
        simp [countCreates] at hpos
      · rw [trackDomainVisit_skip_untracked (by simpa using ht)] at hpos
        simp [countCreates] at hpos
    · rintro ⟨ht, hd⟩
      rw [countCreates_boundary ht hd]
      norm_num
  · intro s t now resp ht hd
    refine ⟨countCreates_boundary ht hd, ?_, ?_, ?_⟩ <;>
      · rw [trackDomainVisit_boundary ht hd]
        rfl
  · intro s t now resp hsame
    by_cases ht : shouldTrackUrl t.url = true
    · rw [trackDomainVisit_same ht hsame]
      exact ⟨rfl, rfl, rfl, rfl, rfl⟩
    · rw [trackDomainVisit_skip_untracked (by simpa using ht)]
      exact ⟨rfl, rfl, rfl, rfl, rfl⟩

/-- C1 witness: two successive navigations to `a.com` pages from a fresh
state yield exactly one create request. -/
theorem claim1_witness :
    countCreates (runNavs initialState
      [⟨⟨some "https://a.com/page1", none, 1, 1, none⟩, 100, some ⟨some "idA"⟩⟩,
       ⟨⟨some "https://a.com/page2", none, 1, 1, none⟩, 200, some ⟨some "idA"⟩⟩]).2
      = 1 := by
  have h := claim1_domainPartition.2.2.2 "a.com"
    [⟨⟨some "https://a.com/page1", none, 1, 1, none⟩, 100, some ⟨some "idA"⟩⟩,
     ⟨⟨some "https://a.com/page2", none, 1, 1, none⟩, 200, some ⟨some "idA"⟩⟩]
    initialState (by decide)
  rw [h]
  decide


/-- With the shared timer still armed and each subsequent event arriving
within the debounce window of its predecessor, only the final event's timer
survives to fire. -/
theorem runDebounce_armed :
    ∀ (rest : List (Nat × Tab)) (t : Nat) (tb : Tab),
      withinWindow ((t, tb) :: rest) = true →
      runDebounce (some (t + DEBOUNCE_DELAY_MS, tb)) rest
        = [((((t, tb) :: rest).getLastD (0, tb)).1 + DEBOUNCE_DELAY_MS,
            (((t, tb) :: rest).getLastD (0, tb)).2)] := by
  intro rest
  induction rest with
  | nil =>
    intro t tb _
    simp [runDebounce, List.getLastD]
  | cons p rest2 ih =>
    intro t tb hw
    obtain ⟨t2, tb2⟩ := p
    have hw1 : t2 < t + DEBOUNCE_DELAY_MS := by
      have := hw
      unfold withinWindow at this
      simp at this
      exact this.1
    have hw2 : withinWindow ((t2, tb2) :: rest2) = true := by
      have := hw
      unfold withinWindow at this
      simp at this
      exact this.2
    unfold runDebounce
    dsimp only
    rw [if_neg (not_le_of_lt hw1)]
    rw [List.nil_append]
    rw [ih t2 tb2 hw2]
    have hl : ((t, tb) :: (t2, tb2) :: rest2).getLastD (0, tb)
        = ((t2, tb2) :: rest2).getLastD (0, tb2) := by
      simp [List.getLastD_cons, List.getLast?_cons]
    rw [hl]

/-- C9: any nonempty run of navigation-complete events for the same tab, each
arriving within the debounce window of its predecessor, produces exactly one
boundary evaluation; it fires one debounce delay after the last event and
carries the last event's tab (each later event having cancelled and replaced
the pending evaluation of the earlier ones). -/
theorem claim9_debounceCollapsing :
    ∀ (evts : List (Nat × Tab)) (tab0 : Tab) (tl : Nat) (tabl : Tab),
      evts.getLast? = some (tl, tabl) →
      withinWindow evts = true →
      (∀ e ∈ evts, e.2 = tab0) →
      runDebounce none evts = [(tl + DEBOUNCE_DELAY_MS, tabl)] ∧ tabl = tab0 := by
  intro evts tab0 tl tabl hlast hwin hsame
  obtain ⟨p, rest, rfl⟩ : ∃ p rest, evts = p :: rest := by
    cases evts with
    | nil => simp at hlast
    | cons p rest => exact ⟨p, rest, rfl⟩
  obtain ⟨t, tb⟩ := p
  constructor
  · unfold runDebounce
    dsimp only
    rw [List.nil_append]
    rw [runDebounce_armed rest t tb hwin]
    have : ((t, tb) :: rest).getLastD (0, tb) = (tl, tabl) := by
      rw [List.getLastD_eq_getLast?, hlast]
      rfl
    rw [this]
  · have hx : (tl, tabl) ∈ ((t, tb) :: rest).getLast? := by
      rw [hlast]; rfl
    obtain ⟨hne, hx2⟩ := List.mem_getLast?_eq_getLast hx
    exact hsame (tl, tabl) (hx2 ▸ List.getLast_mem hne)

/-- C9 witness: three events at 0, 500 and 900 ms for one tab collapse to a
single evaluation at 1900 ms with that tab. -/
theorem claim9_witness :
    runDebounce none
      [(0, ⟨some "https://a.com/", none, 1, 1, none⟩),
       (500, ⟨some "https://a.com/", none, 1, 1, none⟩),
       (900, ⟨some "https://a.com/", none, 1, 1, none⟩)]
      = [(1900, ⟨some "https://a.com/", none, 1, 1, none⟩)] := by
  have h := (claim9_debounceCollapsing
    [(0, ⟨some "https://a.com/", none, 1, 1, none⟩),
     (500, ⟨some "https://a.com/", none, 1, 1, none⟩),
     (900, ⟨some "https://a.com/", none, 1, 1, none⟩)]
    ⟨some "https://a.com/", none, 1, 1, none⟩ 900
    ⟨some "https://a.com/", none, 1, 1, none⟩
    (by decide) (by decide) (by decide)).1
  rw [h]
  decide


/-- C8 amended: restoring a persisted snapshot with a non-empty domain `d`,
engaged seconds `n` and a non-null remote id reinstates exactly that ledger
state; after the initialization sets the heartbeat baseline and a
same-domain navigation leaves the record alone, one engaged heartbeat tick
yields `n + (rounded tick interval)`, not a reset to the interval alone.
(For a snapshot whose domain is the empty string the restoration is not
exact and accumulation restarts: see `claim8_counterexample`.) -/
theorem claim8_restartResumption :
    ∀ (rid d : String) (n la now0 now1 : Nat) (t : Tab) (idle : Option String)
      (snap : Snapshot) (s1 s2 s3 : TrackerState),
      rid ≠ "" → d ≠ "" →
      shouldTrackUrl t.url = true →
      extractDomain t.url = d →
      snap = ⟨⟨some rid⟩, n, some d, la⟩ →
      s1 = loadPersistedVisitData initialState (some snap) →
      s2 = { s1 with lastHeartbeatTime := now0 } →
      s3 = (trackDomainVisit (some t) s2 now0 none).1 →
      checkUserActive now1 la idle = true →
      0 < jsRoundSec (now1 - now0) →
      (s1.currentVisit = some ⟨some rid⟩ ∧ s1.activeSeconds = n
        ∧ s1.lastLoggedDomain = some d ∧ s1.lastActivityTime = la)
      ∧ (heartbeatTick s3 now1 idle).1.activeSeconds
          = n + jsRoundSec (now1 - now0)
      ∧ (0 < n →
          (heartbeatTick s3 now1 idle).1.activeSeconds
            ≠ jsRoundSec (now1 - now0)) := by
  intro rid d n la now0 now1 t idle snap s1 s2 s3
  intro hrid hdne ht hex hsnap hs1 hs2 hs3 heng hdelta
  subst hsnap
  have hdom : jsOrNullStr (some d) = some d := by
    simp [jsOrNullStr, hdne]
  have hs1fields : s1.currentVisit = some ⟨some rid⟩ ∧ s1.activeSeconds = n
      ∧ s1.lastLoggedDomain = some d ∧ s1.lastActivityTime = la := by
    subst hs1
    refine ⟨rfl, rfl, ?_, rfl⟩
    simp [loadPersistedVisitData, hdom]
  have hmain : (heartbeatTick s3 now1 idle).1.activeSeconds
      = n + jsRoundSec (now1 - now0) := by
    have hsame : some (extractDomain t.url) = s2.lastLoggedDomain := by
      rw [hex, hs2]
      dsimp only
      exact hs1fields.2.2.1.symm
    have hstep := @trackDomainVisit_same t s2 now0 none ht hsame
    have hs3eq : s3 = { s2 with lastLoggedTime := now0 } := by
      rw [hs3, hstep]
    have hcv : s3.currentVisit = some ⟨some rid⟩ := by
      rw [hs3eq, hs2]
      dsimp only
      exact hs1fields.1
    have hact : s3.lastActivityTime = la := by
      rw [hs3eq, hs2]
      dsimp only
      exact hs1fields.2.2.2
    have hhb : s3.lastHeartbeatTime = now0 := by
      rw [hs3eq, hs2]
    have hsec : s3.activeSeconds = n := by
      rw [hs3eq, hs2]
      dsimp only
      exact hs1fields.2.1
    unfold heartbeatTick
    rw [hcv]
    dsimp only
    rw [hact, hhb, hsec]
    rw [if_pos (by simp [heng, hdelta])]
  refine ⟨hs1fields, hmain, fun hn hc => ?_⟩
  rw [hmain] at hc
  omega


/-- C8 witness: snapshot {domain "x.com", 42 s, id "abc"} restored, a
same-domain navigation, then one engaged 30-second tick yields 72 s. -/
theorem claim8_witness :
    (heartbeatTick
      (trackDomainVisit (some ⟨some "https://x.com/", none, 1, 1, none⟩)
        { loadPersistedVisitData initialState
            (some ⟨⟨some "abc"⟩, 42, some "x.com", 0⟩) with
          lastHeartbeatTime := 0 }
        0 none).1
      30000 none).1.activeSeconds = 72 := by
  have h := (claim8_restartResumption "abc" "x.com" 42 0 0 30000
    ⟨some "https://x.com/", none, 1, 1, none⟩ none
    ⟨⟨some "abc"⟩, 42, some "x.com", 0⟩
    (loadPersistedVisitData initialState
      (some ⟨⟨some "abc"⟩, 42, some "x.com", 0⟩))
    { loadPersistedVisitData initialState
        (some ⟨⟨some "abc"⟩, 42, some "x.com", 0⟩) with
      lastHeartbeatTime := 0 }
    (trackDomainVisit (some ⟨some "https://x.com/", none, 1, 1, none⟩)
      { loadPersistedVisitData initialState
          (some ⟨⟨some "abc"⟩, 42, some "x.com", 0⟩) with
        lastHeartbeatTime := 0 }
      0 none).1
    (by decide) (by decide) (by decide) (by decide) rfl rfl rfl rfl
    (by decide) (by decide)).2.1
  rw [h]
  decide


/-- C2 witness: the engagement formula evaluated at concrete inputs — a
recent foreground ping with a throwing idle query decides engagement by
foreground recency alone. -/
theorem claim2_witness :
    checkUserActive 100 0 none = true
    ∧ checkUserActive 100 0 (some "idle") = false :=
  ⟨(claim2_checkUserActive.2 100 0).mpr (by decide),
    by
      have h := claim2_checkUserActive.1 100 0 "idle"
      by_contra hc
      simp only [Bool.not_eq_false] at hc
      exact absurd ((h.mp hc).2) (by decide)⟩


/-- C8 counterexample: a reachable snapshot with domain `""`.  A `data:` URL
passes `shouldTrackUrl` (its scheme is not excluded) and extracts to the
empty hostname, so a snapshot `{domain: "", activeSeconds: 42, remoteId:
"abc"}` is persisted while such a tab is tracked.  On reload,
`data.lastLoggedDomain || null` coerces `""` to `null` — the restoration is
not exact — and the initialization's navigation on the unchanged tab sees
`"" !== null`, treats it as a boundary and resets `activeSeconds` to 0, so
the following engaged 30-second tick yields the tick interval alone, not
`42 +` the interval: the claim as stated is false on this snapshot. -/
theorem claim8_counterexample :
    shouldTrackUrl (some "data:text/html,hi") = true
    ∧ extractDomain (some "data:text/html,hi") = ""
    ∧ (loadPersistedVisitData initialState
        (some ⟨⟨some "abc"⟩, 42, some "", 0⟩)).lastLoggedDomain = none
    ∧ (none : Option String) ≠ some ""
    ∧ (heartbeatTick
        (trackDomainVisit (some ⟨some "data:text/html,hi", none, 1, 1, none⟩)
          { loadPersistedVisitData initialState
              (some ⟨⟨some "abc"⟩, 42, some "", 0⟩) with
            lastHeartbeatTime := 0 }
          0 (some ⟨some "id2"⟩)).1
        30000 none).1.activeSeconds = jsRoundSec (30000 - 0)
    ∧ jsRoundSec (30000 - 0) ≠ 42 + jsRoundSec (30000 - 0) := by
  refine ⟨by decide, by decide, by decide, by decide, by decide, by decide⟩

end Tracking
